import Mathlib

/-!
Shallow embedding of `tuxuser/mcc-rs`, file `src/api.rs`: a thin HTTP client
for APK update listings and recipe data.

Modelling conventions:

* The HTTP transport and the URL library (`reqwest` / the `url` crate) are
  external collaborators of the repository.  URL joining against the fixed
  base (`Api::create_url`) is modelled by an abstract argument
  `join : String → Option String` that maps the path handed to
  `reqwest::Url::join` to the final URL string, or `none` when joining fails.
  Network transmission is abstracted away: each operation is split into the
  request it issues (a `Request` value recording the URL, the path given to
  `join`, and the headers) and a pure function of the response body.
* Rust panics (`unwrap`, `expect`) are modelled as `Except` errors carrying a
  `Failure.panicked` value, distinct from the typed errors (`urlError`,
  `networkError`, `decodeError`) that the `Result`-returning functions
  propagate with `?`.
* JSON response bodies are modelled as `Option Json`: `none` stands for a
  body that is not valid JSON, `some j` for the parsed JSON value.  Only
  integer JSON numbers occur in the schemas this API decodes.
* Machine integers: recipe ids are `u32` in the source and are modelled as
  `Nat` with explicit `< 2 ^ 32` bounds where the width matters.
-/

set_option autoImplicit false

/-- The `RecipeType` enum from `src/api.rs`: the release channel enum
    `{ Default, Live, Beta }`. -/
inductive RecipeType where
  | Default
  | Live
  | Beta
deriving DecidableEq, Repr

/-- Rust `impl ToString for RecipeType`: serializes to the lowercase channel name. -/
def RecipeType.toString : RecipeType → String
  | .Default => "default"
  | .Live => "live"
  | .Beta => "beta"

/-- Rust `str::to_lowercase`: lowercase every character (the Unicode
    multi-character expansions do not arise for the channel names this API
    compares against). -/
def rustToLowercase (s : String) : String :=
  String.mk (s.data.map Char.toLower)

/-- Rust `impl FromStr for RecipeType`: matches on `s.to_lowercase()`; any string
    other than a casing of default/live/beta yields the
    `Invalid string for RecipeType provided` error (spec name:
    `InvalidChannelString`).  The error is modelled by its message string. -/
def RecipeType.from_str (s : String) : Except String RecipeType :=
  let ls := rustToLowercase s
  if ls = "default" then .ok .Default
  else if ls = "live" then .ok .Live
  else if ls = "beta" then .ok .Beta
  else .error ("Invalid string for RecipeType provided: " ++ s)

/-- Failure modes of the client operations (spec section 7), plus `panicked`
    for Rust panics (`unwrap` / `expect`), which are crashes rather than
    returned errors. -/
inductive Failure where
  | urlError
  | networkError
  | decodeError
  | panicked (msg : String)
deriving DecidableEq, Repr

/-- An outbound HTTP GET request: the joined URL, the path string that was
    handed to `Url::join` when building it, and the headers attached. -/
structure Request where
  url : String
  path : String
  headers : List (String × String)
deriving DecidableEq, Repr

/-- The `reqwest::header::ACCEPT_LANGUAGE` header name (reqwest stores header
    names lowercased). -/
def ACCEPT_LANGUAGE : String := "accept-language"

/-- Models `Api::create_url`: parse the fixed base URL (a constant, always succeeds)
    and join `path` onto it.  Joining is the abstract `join` argument; a
    `none` result is the `?`-propagated `UrlError`. -/
def createUrl (join : String → Option String) (path : String) :
    Except Failure String :=
  match join path with
  | some u => .ok u
  | none => .error .urlError

/-- Models Rust `Option::unwrap`: the value on `Some`, a panic on `None`. -/
def unwrapOpt {α : Type} (o : Option α) : Except String α :=
  match o with
  | some v => .ok v
  | none => .error "called Option::unwrap on a None value"

/-- The channel resolution in `Api::get_recipe_endpoint`:
    `recipe_type.or(Some(RecipeType::Default)).unwrap().to_string()`. -/
def resolvedRecipeType (recipeType : Option RecipeType) : Except String String :=
  (unwrapOpt (recipeType.or (some RecipeType.Default))).map RecipeType.toString

/-- The language resolution in `Api::get_recipe_endpoint`:
    `language.or(Some(&self.default_language)).unwrap()`. -/
def resolvedLanguage (defaultLanguage : String) (language : Option String) :
    Except String String :=
  unwrapOpt (language.or (some defaultLanguage))

/-- Models `Api::get_recipe_endpoint`: resolve channel and language, build the URL
    `/mcc/api/v1/recipe/<endpoint>`, and issue a GET carrying the
    `Accept-Language` and `X-Recipe-Type` headers.  The request itself is
    returned; response handling is modelled separately per operation. -/
def getRecipeEndpoint (join : String → Option String) (defaultLanguage : String)
    (endpoint : String) (language : Option String)
    (recipeType : Option RecipeType) : Except Failure Request :=
  match resolvedRecipeType recipeType with
  | .error msg => .error (.panicked msg)
  | .ok rt =>
    match resolvedLanguage defaultLanguage language with
    | .error msg => .error (.panicked msg)
    | .ok lang =>
      match createUrl join ("/mcc/api/v1/recipe/" ++ endpoint) with
      | .error e => .error e
      | .ok u =>
        .ok ⟨u, "/mcc/api/v1/recipe/" ++ endpoint,
             [(ACCEPT_LANGUAGE, lang), ("X-Recipe-Type", rt)]⟩

/-- The constant `Api::DOWNLOAD_PATH`. -/
def DOWNLOAD_PATH : String := "/666a60bc-0ce2-4878-9e3b-23ba3ceaba5a"

/-- ASCII whitespace as trimmed by Rust `str::trim_end` (full Unicode
    whitespace in Rust; the ASCII subset suffices for this API's bodies). -/
def isWs (c : Char) : Bool :=
  c = ' ' || c = '\t' || c = '\n' || c = '\r'

/-- Rust `str::trim_end` on a character list. -/
def trimEnd (l : List Char) : List Char :=
  (l.reverse.dropWhile isWs).reverse

/-- Rust `str::split('\n')`: never empty, one element per segment between
    newline separators. -/
def splitOnNl : List Char → List (List Char)
  | [] => [[]]
  | c :: rest =>
    if c = '\n' then [] :: splitOnNl rest
    else
      match splitOnNl rest with
      | [] => [[c]]
      | h :: t => (c :: h) :: t

/-- The `result.trim_end().split('\n')` step of `get_apk_updates`, as strings. -/
def splitLines (body : String) : List String :=
  (splitOnNl (trimEnd body.data)).map String.mk

/-- The `.map(|x| Api::create_url(...).expect("Failed to create URL"))` step
    of `get_apk_updates`: joins each filename under `DOWNLOAD_PATH`, and a
    join failure is an `expect` panic, not a returned error. -/
def mapCreateUrls (join : String → Option String) :
    List String → Except Failure (List String)
  | [] => .ok []
  | x :: rest =>
    match createUrl join (DOWNLOAD_PATH ++ "/" ++ x) with
    | .error _ => .error (.panicked "Failed to create URL")
    | .ok u =>
      match mapCreateUrls join rest with
      | .error e => .error e
      | .ok us => .ok (u :: us)

/-- The request issued by `Api::get_apk_updates`: GET
    `<download-path>/versions.txt`, with no headers attached. -/
def getApkUpdatesRequest (join : String → Option String) :
    Except Failure Request :=
  (createUrl join (DOWNLOAD_PATH ++ "/" ++ "versions.txt")).map
    (fun u => ⟨u, DOWNLOAD_PATH ++ "/" ++ "versions.txt", []⟩)

/-- Models `Api::get_apk_updates` as a function of the response body: build the
    versions.txt URL (`?` on failure), then trim the body's end, split on
    newlines, and map each filename line to its joined URL. -/
def getApkUpdates (join : String → Option String) (body : String) :
    Except Failure (List String) :=
  match getApkUpdatesRequest join with
  | .error e => .error e
  | .ok _ => mapCreateUrls join (splitLines body)

/-- JSON values, as produced by the external JSON parser.  Only integer
    numbers occur in the schemas this client decodes. -/
inductive Json where
  | null
  | bool (b : Bool)
  | num (n : Int)
  | str (s : String)
  | arr (elems : List Json)
  | obj (fields : List (String × Json))

/-- First value bound to `key` in a JSON object's field list. -/
def lookupField (fields : List (String × Json)) (key : String) : Option Json :=
  match fields with
  | [] => none
  | (k, v) :: rest => if k = key then some v else lookupField rest key

/-- Decode a JSON value as a `u32`: a non-negative integer below `2 ^ 32`
    (the bound written as its numeral). -/
def decodeU32 (j : Json) : Except String Nat :=
  match j with
  | .num (Int.ofNat m) =>
    if m < 4294967296 then .ok m else .error "u32 out of range"
  | .num (Int.negSucc _) => .error "u32 out of range"
  | _ => .error "expected an integer"

/-- Decode a JSON array of `u32` values, in order. -/
def decodeU32List : List Json → Except String (List Nat)
  | [] => .ok []
  | j :: rest =>
    match decodeU32 j with
    | .error e => .error e
    | .ok n =>
      match decodeU32List rest with
      | .error e => .error e
      | .ok ns => .ok (n :: ns)

/-- Modelled from the spec: `schemas::RecipeIds` lives in `src/schemas.rs`,
    which is not among the provided sources; per the spec it is a JSON object
    with field `ids` holding a sequence of unsigned 32-bit integers. -/
structure RecipeIds where
  ids : List Nat
deriving DecidableEq, Repr

/-- Modelled from the spec: decoding `schemas::RecipeIds` from JSON — an
    object whose `ids` field is an array of `u32`. -/
def decodeRecipeIds (j : Json) : Except String RecipeIds :=
  match j with
  | .obj fields =>
    match lookupField fields "ids" with
    | some (.arr elems) =>
      match decodeU32List elems with
      | .ok ns => .ok ⟨ns⟩
      | .error e => .error e
    | some _ => .error "field ids has the wrong type"
    | none => .error "missing field ids"
  | _ => .error "expected an object"

/-- Modelled from the spec: the nested identifier of `schemas::Recipe`
    (`data.id`), the one field the spec pins down. -/
structure RecipeData where
  id : Nat
deriving DecidableEq, Repr

/-- Modelled from the spec: `schemas::Recipe` is an opaque JSON-decoded
    record containing at minimum the nested identifier field `data.id`. -/
structure Recipe where
  data : RecipeData
deriving DecidableEq, Repr

/-- Modelled from the spec: decoding `schemas::Recipe` from JSON — an object
    whose `data` field is an object with a `u32` field `id`. -/
def decodeRecipe (j : Json) : Except String Recipe :=
  match j with
  | .obj fields =>
    match lookupField fields "data" with
    | some (.obj dataFields) =>
      match lookupField dataFields "id" with
      | some idJson =>
        match decodeU32 idJson with
        | .ok n => .ok ⟨⟨n⟩⟩
        | .error e => .error e
      | none => .error "missing field id"
    | some _ => .error "field data has the wrong type"
    | none => .error "missing field data"
  | _ => .error "expected an object"

/-- Decode a JSON array as a sequence of Recipe records, in order
    (`Vec<schemas::Recipe>`). -/
def decodeRecipeList : List Json → Except String (List Recipe)
  | [] => .ok []
  | j :: rest =>
    match decodeRecipe j with
    | .error e => .error e
    | .ok r =>
      match decodeRecipeList rest with
      | .error e => .error e
      | .ok rs => .ok (r :: rs)

/-- The request issued by `Api::get_recipe_ids`: the recipe endpoint `"ids"`. -/
def getRecipeIdsRequest (join : String → Option String) (defaultLanguage : String)
    (language : Option String) (recipeType : Option RecipeType) :
    Except Failure Request :=
  getRecipeEndpoint join defaultLanguage "ids" language recipeType

/-- The `.json::<schemas::RecipeIds>()` step of `get_recipe_ids`: an
    unparsable or wrong-shape body is a `DecodeError`; otherwise the decoded
    record's `ids` field is returned. -/
def decodeIdsBody (body : Option Json) : Except Failure (List Nat) :=
  match body with
  | none => .error .decodeError
  | some j =>
    match decodeRecipeIds j with
    | .ok v => .ok v.ids
    | .error _ => .error .decodeError

/-- Models `Api::get_recipe_ids` as a function of the response body: call the
    `"ids"` endpoint and decode the body as `schemas::RecipeIds`, returning
    its `ids` field. -/
def getRecipeIds (join : String → Option String) (defaultLanguage : String)
    (language : Option String) (recipeType : Option RecipeType)
    (body : Option Json) : Except Failure (List Nat) :=
  match getRecipeIdsRequest join defaultLanguage language recipeType with
  | .error e => .error e
  | .ok _ => decodeIdsBody body

/-- The request issued by `Api::get_recipe`: the recipe endpoint
    `id.to_string()` (decimal). -/
def getRecipeRequest (join : String → Option String) (defaultLanguage : String)
    (id : Nat) (language : Option String) (recipeType : Option RecipeType) :
    Except Failure Request :=
  getRecipeEndpoint join defaultLanguage (Nat.repr id) language recipeType

/-- The `.json::<schemas::Recipe>()` step of `get_recipe`. -/
def decodeRecipeBody (body : Option Json) : Except Failure Recipe :=
  match body with
  | none => .error .decodeError
  | some j =>
    match decodeRecipe j with
    | .ok r => .ok r
    | .error _ => .error .decodeError

/-- Models `Api::get_recipe` as a function of the response body: call the `<id>`
    endpoint and decode the body as a single `schemas::Recipe`. -/
def getRecipe (join : String → Option String) (defaultLanguage : String)
    (id : Nat) (language : Option String) (recipeType : Option RecipeType)
    (body : Option Json) : Except Failure Recipe :=
  match getRecipeRequest join defaultLanguage id language recipeType with
  | .error e => .error e
  | .ok _ => decodeRecipeBody body

/-- The request issued by `Api::get_recipes`: the recipe endpoint `"all"`. -/
def getRecipesRequest (join : String → Option String) (defaultLanguage : String)
    (language : Option String) (recipeType : Option RecipeType) :
    Except Failure Request :=
  getRecipeEndpoint join defaultLanguage "all" language recipeType

/-- The `.json::<Vec<schemas::Recipe>>()` step of `get_recipes`. -/
def decodeRecipesBody (body : Option Json) : Except Failure (List Recipe) :=
  match body with
  | none => .error .decodeError
  | some j =>
    match j with
    | .arr elems =>
      match decodeRecipeList elems with
      | .ok rs => .ok rs
      | .error _ => .error .decodeError
    | _ => .error .decodeError

/-- Models `Api::get_recipes` as a function of the response body: call the `"all"`
    endpoint and decode the body as `Vec<schemas::Recipe>`. -/
def getRecipes (join : String → Option String) (defaultLanguage : String)
    (language : Option String) (recipeType : Option RecipeType)
    (body : Option Json) : Except Failure (List Recipe) :=
  match getRecipesRequest join defaultLanguage language recipeType with
  | .error e => .error e
  | .ok _ => decodeRecipesBody body

/-- A concrete joining function for witnesses: the production base
    `https://mc20.monsieur-cuisine.com` with plain path concatenation, which
    is what `Url::join` produces for the well-formed absolute paths used in
    the examples. -/
def prodJoin (path : String) : Option String :=
  some ("https://mc20.monsieur-cuisine.com" ++ path)

/-- A joining function that succeeds on the versions.txt path and fails on
    every other path; exhibits the per-filename join-failure scenario. -/
def failingJoin (path : String) : Option String :=
  if path = DOWNLOAD_PATH ++ "/" ++ "versions.txt" then
    some ("https://mc20.monsieur-cuisine.com" ++ path)
  else
    none

/-- The request value `get_apk_updates` produces under `prodJoin`. -/
def apkRequestProduced : Request :=
  ⟨"https://mc20.monsieur-cuisine.com/666a60bc-0ce2-4878-9e3b-23ba3ceaba5a/versions.txt",
   "/666a60bc-0ce2-4878-9e3b-23ba3ceaba5a/versions.txt", []⟩

/-! ## Helper lemmas -/

theorem resolvedRecipeType_eq (recipeType : Option RecipeType) :
    resolvedRecipeType recipeType =
      .ok (RecipeType.toString (recipeType.getD RecipeType.Default)) := by
  cases recipeType <;> rfl

theorem resolvedLanguage_eq (defaultLanguage : String) (language : Option String) :
    resolvedLanguage defaultLanguage language = .ok (language.getD defaultLanguage) := by
  cases language <;> rfl

theorem getRecipeEndpoint_ok (join : String → Option String)
    (d e : String) (l : Option String) (rt : Option RecipeType) (req : Request)
    (h : getRecipeEndpoint join d e l rt = .ok req) :
    req.url = (join ("/mcc/api/v1/recipe/" ++ e)).getD "" ∧
    req.path = "/mcc/api/v1/recipe/" ++ e ∧
    req.headers = [(ACCEPT_LANGUAGE, l.getD d),
                   ("X-Recipe-Type", RecipeType.toString (rt.getD RecipeType.Default))] := by
  rw [getRecipeEndpoint, resolvedRecipeType_eq, resolvedLanguage_eq] at h
  cases hj : join ("/mcc/api/v1/recipe/" ++ e) with
  | none => rw [createUrl, hj] at h; exact absurd h (by simp)
  | some u =>
    rw [createUrl, hj] at h
    cases h
    exact ⟨by simp [hj], rfl, rfl⟩

/-! ## Claim theorems -/

/-- Claim C2: every casing of default/live/beta parses via
    `RecipeType::from_str` and round-trips through `to_string` to the
    canonical lowercase form; every other string yields the
    `InvalidChannelString` error. -/
theorem recipe_type_parse_roundtrip (s : String) :
    (rustToLowercase s = "default" →
      RecipeType.from_str s = .ok RecipeType.Default ∧
      RecipeType.toString RecipeType.Default = rustToLowercase s) ∧
    (rustToLowercase s = "live" →
      RecipeType.from_str s = .ok RecipeType.Live ∧
      RecipeType.toString RecipeType.Live = rustToLowercase s) ∧
    (rustToLowercase s = "beta" →
      RecipeType.from_str s = .ok RecipeType.Beta ∧
      RecipeType.toString RecipeType.Beta = rustToLowercase s) ∧
    (rustToLowercase s ≠ "default" → rustToLowercase s ≠ "live" → rustToLowercase s ≠ "beta" →
      RecipeType.from_str s =
        .error ("Invalid string for RecipeType provided: " ++ s)) := by
  refine ⟨fun h => ?_, fun h => ?_, fun h => ?_, fun h1 h2 h3 => ?_⟩ <;>
    simp [RecipeType.from_str, RecipeType.toString, *]

/-- Witness for C2 at concrete inputs "DeFaULt" and "foo". -/
theorem recipe_type_parse_roundtrip_witness :
    (RecipeType.from_str "DeFaULt" = .ok RecipeType.Default ∧
      RecipeType.toString RecipeType.Default = rustToLowercase "DeFaULt") ∧
    RecipeType.from_str "foo" =
      .error ("Invalid string for RecipeType provided: " ++ "foo") :=
  ⟨(recipe_type_parse_roundtrip "DeFaULt").1 (by decide),
   (recipe_type_parse_roundtrip "foo").2.2.2 (by decide) (by decide) (by decide)⟩

/-- Claim C9: the two `unwrap` calls in `get_recipe_endpoint` never panic —
    each `Option` has first been combined with a `Some` default via `or`, so
    the resolution step always produces an `ok` value. -/
theorem recipe_param_unwraps_never_panic (recipeType : Option RecipeType)
    (language : Option String) (defaultLanguage : String) :
    resolvedRecipeType recipeType =
      .ok (RecipeType.toString (recipeType.getD RecipeType.Default)) ∧
    resolvedLanguage defaultLanguage language =
      .ok (language.getD defaultLanguage) :=
  ⟨resolvedRecipeType_eq recipeType, resolvedLanguage_eq defaultLanguage language⟩

/-- Claim C1: on every recipe-endpoint request (get_recipe_ids, get_recipe
    and get_recipes all route through get_recipe_endpoint), the
    Accept-Language header is the explicit language argument when given and
    the client's default otherwise, and the X-Recipe-Type header is the
    explicit channel's string form when given and "default" otherwise. -/
theorem recipe_endpoint_header_resolution :
    (∀ (join : String → Option String) (d e : String) (l : Option String)
        (rt : Option RecipeType) (req : Request),
      getRecipeEndpoint join d e l rt = .ok req →
      req.headers.lookup ACCEPT_LANGUAGE = some (l.getD d) ∧
      req.headers.lookup "X-Recipe-Type" =
        some (RecipeType.toString (rt.getD RecipeType.Default))) ∧
    (∀ join d l rt,
      getRecipeIdsRequest join d l rt = getRecipeEndpoint join d "ids" l rt) ∧
    (∀ join d id l rt,
      getRecipeRequest join d id l rt =
        getRecipeEndpoint join d (Nat.repr id) l rt) ∧
    (∀ join d l rt,
      getRecipesRequest join d l rt = getRecipeEndpoint join d "all" l rt) := by
  refine ⟨?_, fun _ _ _ _ => rfl, fun _ _ _ _ _ => rfl, fun _ _ _ _ => rfl⟩
  intro join d e l rt req h
  obtain ⟨-, -, hh⟩ := getRecipeEndpoint_ok join d e l rt req h
  rw [hh]
  constructor <;> simp [List.lookup, ACCEPT_LANGUAGE]

/-- Witness for C1: explicit language "fr" and channel Live override the
    configured default "de". -/
theorem recipe_endpoint_header_resolution_witness :
    (Request.mk "https://mc20.monsieur-cuisine.com/mcc/api/v1/recipe/ids"
        "/mcc/api/v1/recipe/ids"
        [(ACCEPT_LANGUAGE, "fr"), ("X-Recipe-Type", "live")]).headers.lookup
        ACCEPT_LANGUAGE = some "fr" ∧
    (Request.mk "https://mc20.monsieur-cuisine.com/mcc/api/v1/recipe/ids"
        "/mcc/api/v1/recipe/ids"
        [(ACCEPT_LANGUAGE, "fr"), ("X-Recipe-Type", "live")]).headers.lookup
        "X-Recipe-Type" = some "live" :=
  recipe_endpoint_header_resolution.1 prodJoin "de" "ids" (some "fr")
    (some RecipeType.Live) _ rfl

/-- Claim C5 counterexample: the get_apk_updates request is an outbound HTTP
    request that carries no language value and no release-channel value at
    all (its header list is empty), so not every outbound request carries
    exactly one of each. -/
theorem apk_request_no_language_header :
    getApkUpdatesRequest prodJoin = .ok apkRequestProduced ∧
    apkRequestProduced.headers.lookup ACCEPT_LANGUAGE = none ∧
    apkRequestProduced.headers.lookup "X-Recipe-Type" = none :=
  ⟨rfl, rfl, rfl⟩

/-- Claim C5 (amended): every recipe-endpoint request carries exactly one
    language value and exactly one release-channel value, each resolved by
    "explicit argument overrides configured default"; the get_apk_updates
    request carries no headers at all. -/
theorem outbound_request_headers :
    (∀ (join : String → Option String) (d e : String) (l : Option String)
        (rt : Option RecipeType) (req : Request),
      getRecipeEndpoint join d e l rt = .ok req →
      req.headers = [(ACCEPT_LANGUAGE, l.getD d),
                     ("X-Recipe-Type",
                      RecipeType.toString (rt.getD RecipeType.Default))]) ∧
    (∀ (join : String → Option String) (req : Request),
      getApkUpdatesRequest join = .ok req → req.headers = []) := by
  constructor
  · intro join d e l rt req h
    exact (getRecipeEndpoint_ok join d e l rt req h).2.2
  · intro join req h
    cases hj : join (DOWNLOAD_PATH ++ "/" ++ "versions.txt") with
    | none =>
      rw [getApkUpdatesRequest, createUrl, hj] at h
      exact absurd h (by simp [Except.map])
    | some u =>
      rw [getApkUpdatesRequest, createUrl, hj] at h
      simp only [Except.map, Except.ok.injEq] at h
      rw [← h]

/-- Witness for C5 (amended) at a concrete recipe request and the concrete
    apk request. -/
theorem outbound_request_headers_witness :
    (Request.mk "https://mc20.monsieur-cuisine.com/mcc/api/v1/recipe/all"
        "/mcc/api/v1/recipe/all"
        [(ACCEPT_LANGUAGE, "de"), ("X-Recipe-Type", "default")]).headers =
      [(ACCEPT_LANGUAGE, "de"), ("X-Recipe-Type", "default")] ∧
    apkRequestProduced.headers = [] :=
  ⟨outbound_request_headers.1 prodJoin "de" "all" none none _ rfl,
   outbound_request_headers.2 prodJoin apkRequestProduced rfl⟩

theorem splitOnNl_length (l : List Char) :
    (splitOnNl l).length = l.count '\n' + 1 := by
  induction l with
  | nil => rfl
  | cons c rest ih =>
    by_cases h : c = '\n'
    · subst h
      simp [splitOnNl, List.count_cons, ih]
    · rw [splitOnNl, if_neg h]
      cases hs : splitOnNl rest with
      | nil => rw [hs] at ih; simp at ih
      | cons a t =>
        rw [hs] at ih
        simp only [List.length_cons] at ih ⊢
        simp [List.count_cons, h]
        omega

theorem getApkUpdates_eq (join : String → Option String) (v : String)
    (hv : join (DOWNLOAD_PATH ++ "/" ++ "versions.txt") = some v)
    (body : String) :
    getApkUpdates join body = mapCreateUrls join (splitLines body) := by
  rw [getApkUpdates, getApkUpdatesRequest, createUrl, hv]
  rfl

theorem mapCreateUrls_length (join : String → Option String) :
    ∀ (xs us : List String), mapCreateUrls join xs = .ok us →
      us.length = xs.length := by
  intro xs
  induction xs with
  | nil => intro us h; rw [mapCreateUrls] at h; cases h; rfl
  | cons x rest ih =>
    intro us h
    rw [mapCreateUrls] at h
    cases hc : createUrl join (DOWNLOAD_PATH ++ "/" ++ x) with
    | error e => rw [hc] at h; exact absurd h (by simp)
    | ok u =>
      rw [hc] at h
      cases hm : mapCreateUrls join rest with
      | error e => rw [hm] at h; exact absurd h (by simp)
      | ok us2 =>
        rw [hm] at h
        cases h
        simp [ih us2 hm]

theorem mapCreateUrls_panic (join : String → Option String) :
    ∀ xs : List String, (∃ x ∈ xs, join (DOWNLOAD_PATH ++ "/" ++ x) = none) →
      mapCreateUrls join xs = .error (.panicked "Failed to create URL") := by
  intro xs
  induction xs with
  | nil => rintro ⟨x, hx, -⟩; cases hx
  | cons y rest ih =>
    rintro ⟨x, hx, hnone⟩
    rw [mapCreateUrls]
    rcases List.mem_cons.mp hx with rfl | hmem
    · rw [createUrl, hnone]
    · cases hc : createUrl join (DOWNLOAD_PATH ++ "/" ++ y) with
      | error e => rfl
      | ok u => rw [ih ⟨x, hmem, hnone⟩]

/-- Claim C3: for the response body containing the three filenames a.apk,
    b.apk, c.apk with a trailing newline, get_apk_updates returns exactly
    the three URLs obtained by joining the base with
    download-path/filename, in body order, with the trailing newline
    trimmed. -/
theorem apk_updates_three_files (join : String → Option String)
    (v ua ub uc : String)
    (hv : join (DOWNLOAD_PATH ++ "/" ++ "versions.txt") = some v)
    (ha : join (DOWNLOAD_PATH ++ "/" ++ "a.apk") = some ua)
    (hb : join (DOWNLOAD_PATH ++ "/" ++ "b.apk") = some ub)
    (hc : join (DOWNLOAD_PATH ++ "/" ++ "c.apk") = some uc) :
    getApkUpdates join "a.apk\nb.apk\nc.apk\n" = .ok [ua, ub, uc] := by
  rw [getApkUpdates_eq join v hv]
  rw [show splitLines "a.apk\nb.apk\nc.apk\n" = ["a.apk", "b.apk", "c.apk"]
      from by decide]
  simp only [mapCreateUrls, createUrl, ha, hb, hc]

/-- Witness for C3 under the production base URL. -/
theorem apk_updates_three_files_witness :
    getApkUpdates prodJoin "a.apk\nb.apk\nc.apk\n" =
      .ok ["https://mc20.monsieur-cuisine.com/666a60bc-0ce2-4878-9e3b-23ba3ceaba5a/a.apk",
           "https://mc20.monsieur-cuisine.com/666a60bc-0ce2-4878-9e3b-23ba3ceaba5a/b.apk",
           "https://mc20.monsieur-cuisine.com/666a60bc-0ce2-4878-9e3b-23ba3ceaba5a/c.apk"] :=
  apk_updates_three_files prodJoin _ _ _ _ rfl rfl rfl rfl

/-- Claim C4 counterexample: under a joining function that fails on the
    filename line "x.apk" (while the versions.txt URL itself joins fine),
    get_apk_updates does not return a UrlError — it hits the expect and
    panics. -/
theorem apk_update_join_failure_panics :
    getApkUpdates failingJoin "x.apk" =
      .error (.panicked "Failed to create URL") ∧
    Failure.panicked "Failed to create URL" ≠ Failure.urlError :=
  ⟨rfl, by decide⟩

/-- Claim C4 (amended): if a filename line in the response body cannot be
    joined into a URL, get_apk_updates does not return a typed UrlError —
    it crashes with the expect panic "Failed to create URL". -/
theorem apk_update_filename_join_failure (join : String → Option String)
    (body : String) (v : String)
    (hv : join (DOWNLOAD_PATH ++ "/" ++ "versions.txt") = some v)
    (hfail : ∃ x ∈ splitLines body, join (DOWNLOAD_PATH ++ "/" ++ x) = none) :
    getApkUpdates join body = .error (.panicked "Failed to create URL") := by
  rw [getApkUpdates_eq join v hv]
  exact mapCreateUrls_panic join (splitLines body) hfail

/-- Witness for C4 (amended): a two-line body whose first line fails to
    join. -/
theorem apk_update_filename_join_failure_witness :
    getApkUpdates failingJoin "y.apk\nz.apk" =
      .error (.panicked "Failed to create URL") :=
  apk_update_filename_join_failure failingJoin "y.apk\nz.apk" _ rfl
    ⟨"y.apk", by decide, rfl⟩

/-- Claim C10: whenever get_apk_updates returns a list, it is non-empty and
    its length is one plus the number of newline separators remaining after
    trailing whitespace is trimmed; for a body that trims to empty the
    result is the single URL joined from the empty filename. -/
theorem apk_updates_never_empty :
    (∀ (join : String → Option String) (body : String) (l : List String),
      getApkUpdates join body = .ok l →
      l ≠ [] ∧ l.length = 1 + (trimEnd body.data).count '\n') ∧
    (∀ (join : String → Option String) (body : String) (v u : String),
      trimEnd body.data = [] →
      join (DOWNLOAD_PATH ++ "/" ++ "versions.txt") = some v →
      join (DOWNLOAD_PATH ++ "/" ++ "") = some u →
      getApkUpdates join body = .ok [u]) := by
  constructor
  · intro join body l h
    cases hj : join (DOWNLOAD_PATH ++ "/" ++ "versions.txt") with
    | none =>
      rw [getApkUpdates, getApkUpdatesRequest, createUrl, hj] at h
      exact absurd h (by simp [Except.map])
    | some v =>
      rw [getApkUpdates_eq join v hj] at h
      have hlen : l.length = (splitLines body).length :=
        mapCreateUrls_length join (splitLines body) l h
      have hsplit : (splitLines body).length =
          (trimEnd body.data).count '\n' + 1 := by
        rw [splitLines, List.length_map, splitOnNl_length]
      constructor
      · intro hnil
        rw [hnil] at hlen
        simp at hlen
        omega
      · omega
  · intro join body v u htrim hv hu
    have hmk : (String.mk [] : String) = "" := rfl
    rw [getApkUpdates_eq join v hv, splitLines, htrim]
    simp only [splitOnNl, List.map_cons, List.map_nil]
    rw [mapCreateUrls, createUrl, hmk, hu, mapCreateUrls]

/-- Witness for C10: a two-line body and the empty body under the
    production base URL. -/
theorem apk_updates_never_empty_witness :
    ((["https://mc20.monsieur-cuisine.com/666a60bc-0ce2-4878-9e3b-23ba3ceaba5a/a.apk",
       "https://mc20.monsieur-cuisine.com/666a60bc-0ce2-4878-9e3b-23ba3ceaba5a/b.apk"] :
        List String) ≠ [] ∧
     (["https://mc20.monsieur-cuisine.com/666a60bc-0ce2-4878-9e3b-23ba3ceaba5a/a.apk",
       "https://mc20.monsieur-cuisine.com/666a60bc-0ce2-4878-9e3b-23ba3ceaba5a/b.apk"] :
        List String).length = 1 + (trimEnd ("a.apk\nb.apk".data)).count '\n') ∧
    getApkUpdates prodJoin "" =
      .ok ["https://mc20.monsieur-cuisine.com/666a60bc-0ce2-4878-9e3b-23ba3ceaba5a/"] :=
  ⟨apk_updates_never_empty.1 prodJoin "a.apk\nb.apk" _ rfl,
   apk_updates_never_empty.2 prodJoin "" _ _ rfl rfl rfl⟩

theorem getRecipeIds_eq (join : String → Option String) (d : String)
    (l : Option String) (rt : Option RecipeType) (req : Request)
    (hreq : getRecipeIdsRequest join d l rt = .ok req) (body : Option Json) :
    getRecipeIds join d l rt body = decodeIdsBody body := by
  rw [getRecipeIds, hreq]

theorem getRecipe_eq (join : String → Option String) (d : String) (id : Nat)
    (l : Option String) (rt : Option RecipeType) (req : Request)
    (hreq : getRecipeRequest join d id l rt = .ok req) (body : Option Json) :
    getRecipe join d id l rt body = decodeRecipeBody body := by
  rw [getRecipe, hreq]

theorem getRecipes_eq (join : String → Option String) (d : String)
    (l : Option String) (rt : Option RecipeType) (req : Request)
    (hreq : getRecipesRequest join d l rt = .ok req) (body : Option Json) :
    getRecipes join d l rt body = decodeRecipesBody body := by
  rw [getRecipes, hreq]

theorem decodeU32List_map (ns : List Nat) (h : ∀ n ∈ ns, n < 2 ^ 32) :
    decodeU32List (ns.map (fun n => Json.num (Int.ofNat n))) = .ok ns := by
  induction ns with
  | nil => rfl
  | cons n rest ih =>
    have hn : n < 4294967296 :=
      lt_of_lt_of_le (h n (List.mem_cons_self n rest)) (by norm_num)
    have hrest := ih (fun m hm => h m (List.mem_cons_of_mem n hm))
    simp only [List.map_cons, decodeU32List, decodeU32]
    rw [if_pos hn, hrest]

theorem decodeRecipeList_ok :
    ∀ (js : List Json) (rs : List Recipe), decodeRecipeList js = .ok rs →
      rs.length = js.length ∧
      ∀ i, (hi : i < js.length) → (hr : i < rs.length) →
        decodeRecipe (js.get ⟨i, hi⟩) = .ok (rs.get ⟨i, hr⟩) := by
  intro js
  induction js with
  | nil =>
    intro rs h
    rw [decodeRecipeList] at h
    cases h
    exact ⟨rfl, fun i hi hr => absurd hi (Nat.not_lt_zero i)⟩
  | cons j rest ih =>
    intro rs h
    rw [decodeRecipeList] at h
    cases hd : decodeRecipe j with
    | error e => rw [hd] at h; exact absurd h (by simp)
    | ok r =>
      rw [hd] at h
      cases hm : decodeRecipeList rest with
      | error e => rw [hm] at h; exact absurd h (by simp)
      | ok rs2 =>
        rw [hm] at h
        cases h
        obtain ⟨hlen, hidx⟩ := ih rs2 hm
        refine ⟨by simp [hlen], ?_⟩
        intro i hi hr
        cases i with
        | zero => exact hd
        | succ k =>
          exact hidx k (Nat.lt_of_succ_lt_succ hi) (Nat.lt_of_succ_lt_succ hr)

theorem decodeRecipeIds_ids_arr (elems : List Json) :
    decodeRecipeIds (Json.obj [("ids", Json.arr elems)]) =
      match decodeU32List elems with
      | .ok ns => .ok ⟨ns⟩
      | .error e => .error e := rfl

/-- Claim C6: get_recipe_ids calls the recipe endpoint "ids" and decodes a
    JSON object whose ids field holds a sequence of u32 values, returned in
    order; a body that is not valid JSON, or that decoding rejects, yields a
    DecodeError. -/
theorem recipe_ids_decoding (join : String → Option String) (d : String)
    (l : Option String) (rt : Option RecipeType) (req : Request)
    (hreq : getRecipeIdsRequest join d l rt = .ok req) :
    req.path = "/mcc/api/v1/recipe/" ++ "ids" ∧
    (∀ ns : List Nat, (∀ n ∈ ns, n < 2 ^ 32) →
      getRecipeIds join d l rt
          (some (Json.obj
            [("ids", Json.arr (ns.map (fun n => Json.num (Int.ofNat n))))])) =
        .ok ns) ∧
    getRecipeIds join d l rt
        (some (Json.obj [("ids", Json.arr [Json.num 1, Json.num 2])])) =
      .ok [1, 2] ∧
    getRecipeIds join d l rt none = .error .decodeError ∧
    (∀ (j : Json) (e : String), decodeRecipeIds j = .error e →
      getRecipeIds join d l rt (some j) = .error .decodeError) := by
  refine ⟨(getRecipeEndpoint_ok join d "ids" l rt req hreq).2.1, ?_, ?_, ?_, ?_⟩
  · intro ns hns
    rw [getRecipeIds_eq join d l rt req hreq]
    simp only [decodeIdsBody]
    rw [decodeRecipeIds_ids_arr, decodeU32List_map ns hns]
  · rw [getRecipeIds_eq join d l rt req hreq]
    rfl
  · rw [getRecipeIds_eq join d l rt req hreq]
    rfl
  · intro j e hj
    rw [getRecipeIds_eq join d l rt req hreq]
    simp only [decodeIdsBody, hj]

/-- Witness for C6: the body with ids [1, 2] under the production base and
    default parameters. -/
theorem recipe_ids_decoding_witness :
    getRecipeIds prodJoin "de" none none
        (some (Json.obj [("ids", Json.arr [Json.num 1, Json.num 2])])) =
      .ok [1, 2] :=
  (recipe_ids_decoding prodJoin "de" none none
      (Request.mk "https://mc20.monsieur-cuisine.com/mcc/api/v1/recipe/ids"
        "/mcc/api/v1/recipe/ids"
        [(ACCEPT_LANGUAGE, "de"), ("X-Recipe-Type", "default")])
      rfl).2.2.1

/-- Claim C7: get_recipe(id) calls the recipe endpoint named by the decimal
    form of id and decodes the body as one Recipe; the body with nested
    data.id 25011 decodes to a record whose data.id is 25011; a bad body is
    a DecodeError. -/
theorem recipe_by_id_decoding (join : String → Option String) (d : String)
    (l : Option String) (rt : Option RecipeType) (id : Nat) (req : Request)
    (hid : id < 2 ^ 32)
    (hreq : getRecipeRequest join d id l rt = .ok req) :
    req.path = "/mcc/api/v1/recipe/" ++ Nat.repr id ∧
    getRecipe join d id l rt
        (some (Json.obj [("data", Json.obj [("id", Json.num 25011)])])) =
      .ok ⟨⟨25011⟩⟩ ∧
    getRecipe join d id l rt none = .error .decodeError ∧
    (∀ (j : Json) (e : String), decodeRecipe j = .error e →
      getRecipe join d id l rt (some j) = .error .decodeError) := by
  refine ⟨(getRecipeEndpoint_ok join d (Nat.repr id) l rt req hreq).2.1,
    ?_, ?_, ?_⟩
  · rw [getRecipe_eq join d id l rt req hreq]
    rfl
  · rw [getRecipe_eq join d id l rt req hreq]
    rfl
  · intro j e hj
    rw [getRecipe_eq join d id l rt req hreq]
    simp only [decodeRecipeBody, hj]

/-- Witness for C7 at id 25011 under the production base and default
    parameters. -/
theorem recipe_by_id_decoding_witness :
    (Request.mk "https://mc20.monsieur-cuisine.com/mcc/api/v1/recipe/25011"
        "/mcc/api/v1/recipe/25011"
        [(ACCEPT_LANGUAGE, "de"), ("X-Recipe-Type", "default")]).path =
      "/mcc/api/v1/recipe/" ++ Nat.repr 25011 ∧
    getRecipe prodJoin "de" 25011 none none
        (some (Json.obj [("data", Json.obj [("id", Json.num 25011)])])) =
      .ok ⟨⟨25011⟩⟩ :=
  ⟨(recipe_by_id_decoding prodJoin "de" none none 25011
      (Request.mk "https://mc20.monsieur-cuisine.com/mcc/api/v1/recipe/25011"
        "/mcc/api/v1/recipe/25011"
        [(ACCEPT_LANGUAGE, "de"), ("X-Recipe-Type", "default")])
      (by norm_num) rfl).1,
   (recipe_by_id_decoding prodJoin "de" none none 25011
      (Request.mk "https://mc20.monsieur-cuisine.com/mcc/api/v1/recipe/25011"
        "/mcc/api/v1/recipe/25011"
        [(ACCEPT_LANGUAGE, "de"), ("X-Recipe-Type", "default")])
      (by norm_num) rfl).2.1⟩

/-- Claim C8: get_recipes calls the recipe endpoint "all" and decodes the
    body as a sequence of Recipe records; a decoded non-empty JSON array
    yields a non-empty result of the same length that preserves the order
    of the array's elements. -/
theorem recipes_all_decoding (join : String → Option String) (d : String)
    (l : Option String) (rt : Option RecipeType) (req : Request)
    (hreq : getRecipesRequest join d l rt = .ok req) :
    req.path = "/mcc/api/v1/recipe/" ++ "all" ∧
    (∀ (elems : List Json) (rs : List Recipe),
      getRecipes join d l rt (some (Json.arr elems)) = .ok rs →
      rs.length = elems.length ∧
      (elems ≠ [] → rs ≠ []) ∧
      (∀ i, (hi : i < elems.length) → (hr : i < rs.length) →
        decodeRecipe (elems.get ⟨i, hi⟩) = .ok (rs.get ⟨i, hr⟩))) := by
  refine ⟨(getRecipeEndpoint_ok join d "all" l rt req hreq).2.1, ?_⟩
  intro elems rs h
  rw [getRecipes_eq join d l rt req hreq] at h
  rw [decodeRecipesBody] at h
  cases hd : decodeRecipeList elems with
  | error e => rw [hd] at h; exact absurd h (by simp)
  | ok rs2 =>
    rw [hd] at h
    cases h
    obtain ⟨hlen, hidx⟩ := decodeRecipeList_ok elems rs hd
    refine ⟨hlen, ?_, hidx⟩
    intro hne hnil
    rw [hnil] at hlen
    exact hne (List.eq_nil_of_length_eq_zero hlen.symm)

/-- Witness for C8: a one-element array body under the production base and
    default parameters. -/
theorem recipes_all_decoding_witness :
    (Request.mk "https://mc20.monsieur-cuisine.com/mcc/api/v1/recipe/all"
        "/mcc/api/v1/recipe/all"
        [(ACCEPT_LANGUAGE, "de"), ("X-Recipe-Type", "default")]).path =
      "/mcc/api/v1/recipe/" ++ "all" ∧
    ([(⟨⟨25011⟩⟩ : Recipe)] : List Recipe) ≠ [] :=
  ⟨(recipes_all_decoding prodJoin "de" none none
      (Request.mk "https://mc20.monsieur-cuisine.com/mcc/api/v1/recipe/all"
        "/mcc/api/v1/recipe/all"
        [(ACCEPT_LANGUAGE, "de"), ("X-Recipe-Type", "default")]) rfl).1,
   ((recipes_all_decoding prodJoin "de" none none
      (Request.mk "https://mc20.monsieur-cuisine.com/mcc/api/v1/recipe/all"
        "/mcc/api/v1/recipe/all"
        [(ACCEPT_LANGUAGE, "de"), ("X-Recipe-Type", "default")]) rfl).2
      [Json.obj [("data", Json.obj [("id", Json.num 25011)])]]
      [⟨⟨25011⟩⟩] rfl).2.1 (by simp)⟩
